import Mathlib

/-!
Verification of the `TagStateManager` component
(`src/Code/Native/Source/LightSystem/TagStateManager.h`).

The header declares the data model: a `StateContainer` per pass channel
(shadow, voxelize) holding `cameras : vector<Camera*>`,
`tag_states : pmap<string, CPT(RenderState)>`, a `tag_name` and a `mask`
(`BitMask32`), plus the per-channel operations `apply_state`,
`cleanup_states`, `register_camera`, `unregister_camera` and the public
per-pass wrappers.  The inline implementation file `TagStateManager.I` is
not part of the sources, so the bodies of the operations are modelled from
the specification; each such definition carries a doc comment saying so.

Machine integers (`BitMask32`) are modelled as `Nat` with explicit bitwise
operations; object identity of reference-counted render states is modelled
by a fresh `uid` drawn from a monotone counter; the externally owned
cameras and scene nodes are modelled as stores indexed by `Nat` handles.
-/

namespace RenderPipeline

/-- A render-state override (`CPT(RenderState)` in the header): shader
binding, draw-order priority, the color-write toggle, and a `uid` that
models object identity of the reference-counted state. -/
structure RenderStateOv where
  shader : Nat
  sort : Int
  colorWriteOff : Bool
  uid : Nat
deriving DecidableEq

/-- The mutable per-camera fields touched by the manager: the 32-bit
visibility mask and the per-pass lookup key (tag-state key). -/
structure CameraState where
  mask : Nat
  tagKey : String
deriving DecidableEq

/-- `TagStateManager::StateContainer` (header lines 49-54): the cameras
registered to the channel, the name-indexed cache of render states, the
channel tag name and the channel visibility bit. -/
structure StateContainer where
  cameras : List Nat
  tag_states : List (String × RenderStateOv)
  tag_name : String
  mask : Nat
deriving DecidableEq

/-- The externally owned mutable world: the camera objects, the per-node
per-tag override tables of the scene graph, and the counter supplying
fresh identities for newly built render states. -/
structure Stores where
  camStore : Nat → CameraState
  nodeStore : Nat → String → Option RenderStateOv
  nextUid : Nat

/-- Point update of the camera store. -/
def updCam (f : Nat → CameraState) (c : Nat) (g : CameraState → CameraState) :
    Nat → CameraState :=
  fun x => if x = c then g (f x) else f x

/-- Point update of a node's per-tag override table. -/
def updNode (f : Nat → String → Option RenderStateOv) (np : Nat) (k : String)
    (v : Option RenderStateOv) : Nat → String → Option RenderStateOv :=
  fun x key => if x = np ∧ key = k then v else f x key

/-- Lookup in the ordered association list modelling
`pmap<string, CPT(RenderState)>`. -/
def lookupTag : List (String × RenderStateOv) → String → Option RenderStateOv
  | [], _ => none
  | (k, v) :: rest, name => if k = name then some v else lookupTag rest name

/-- Modelled from the spec: the body of `get_gbuffer_mask` is in the
missing `TagStateManager.I`; the spec fixes it as a statically reserved
bit of a 32-bit mask space, distinct from the shadow and voxelize bits. -/
def get_gbuffer_mask : Nat := 2 ^ 1

/-- Modelled from the spec: the body of `get_shadow_mask` is in the
missing `TagStateManager.I`; a statically reserved single bit. -/
def get_shadow_mask : Nat := 2 ^ 2

/-- Modelled from the spec: the body of `get_voxelize_mask` is in the
missing `TagStateManager.I`; a statically reserved single bit. -/
def get_voxelize_mask : Nat := 2 ^ 3

/-- Modelled from the spec: the default per-pass lookup key a camera is
reset to on unregistration (default/gbuffer behavior). -/
def default_tag_key : String := ""

/-- All 32 bits set: the universe of the `BitMask32` mask space. -/
def mask32_all : Nat := 2 ^ 32 - 1

/-- Clearing the bits `b` from a 32-bit mask `m`. -/
def clear_bits (m b : Nat) : Nat := m &&& (mask32_all ^^^ b)

/-- Modelled from the spec: the state built by `apply_state` on a cache
miss (body in the missing `TagStateManager.I`): start from a default
state, bind the shader, set the draw-order priority to `sort`, disable
color writes (both channels are depth-only), and take a fresh identity. -/
def build_tag_state (shader : Nat) (sort : Int) (uid : Nat) : RenderStateOv :=
  { shader := shader, sort := sort, colorWriteOff := true, uid := uid }

namespace StateContainer

/-- Modelled from the spec: `TagStateManager::apply_state` (declaration at
header lines 56-57, body in the missing `TagStateManager.I`).  Look `name`
up in `tag_states`; on a miss build a new state and insert it (first
writer wins, existing entries are never replaced); either way attach the
resulting override to the node under the channel's `tag_name`. -/
def apply_state (c : StateContainer) (s : Stores) (np shader : Nat)
    (name : String) (sort : Int) : StateContainer × Stores :=
  match lookupTag c.tag_states name with
  | some ov =>
      (c, { s with nodeStore := updNode s.nodeStore np c.tag_name (some ov) })
  | none =>
      let ov := build_tag_state shader sort s.nextUid
      ({ c with tag_states := c.tag_states ++ [(name, ov)] },
       { s with
          nodeStore := updNode s.nodeStore np c.tag_name (some ov),
          nextUid := s.nextUid + 1 })

/-- Modelled from the spec: the per-container `cleanup_states` (header
line 58, body in the missing `TagStateManager.I`).  `StateContainer`
retains no record of which nodes received overrides, so the operation can
only clear the `tag_states` cache; cameras are not affected. -/
def cleanup_states (c : StateContainer) (s : Stores) : StateContainer × Stores :=
  ({ c with tag_states := [] }, s)

/-- Modelled from the spec: `TagStateManager::register_camera` (header
line 59, body in the missing `TagStateManager.I`).  No-op if the camera is
already registered; otherwise append it, set the channel bit in its
visibility mask and set its lookup key to the channel tag name. -/
def register_camera (c : StateContainer) (s : Stores) (cam : Nat) :
    StateContainer × Stores :=
  if cam ∈ c.cameras then (c, s)
  else
    ({ c with cameras := c.cameras ++ [cam] },
     { s with
        camStore := updCam s.camStore cam
          (fun cs => { cs with mask := cs.mask ||| c.mask, tagKey := c.tag_name }) })

/-- Modelled from the spec: `TagStateManager::unregister_camera` (header
line 60, body in the missing `TagStateManager.I`).  No-op if the camera is
not registered; otherwise remove it, clear the channel bit from its
visibility mask and reset its lookup key to the default value. -/
def unregister_camera (c : StateContainer) (s : Stores) (cam : Nat) :
    StateContainer × Stores :=
  if cam ∈ c.cameras then
    ({ c with cameras := c.cameras.erase cam },
     { s with
        camStore := updCam s.camStore cam
          (fun cs => { cs with mask := clear_bits cs.mask c.mask,
                               tagKey := default_tag_key }) })
  else (c, s)

end StateContainer

/-- The `TagStateManager` instance together with the external world it
mutates: the two pass channels (header lines 62-63), the main camera node
handle (line 65), and the camera/node stores. -/
structure World where
  shadow : StateContainer
  voxelize : StateContainer
  stores : Stores
  main_cam_node : Nat

/-- Modelled from the spec: the `TagStateManager` constructor (body in the
missing sources) creates one channel per pass kind with empty camera list
and cache, the channel tag name, and the reserved visibility bit. -/
def makeTagStateManager (main_cam : Nat) (s : Stores) : World :=
  { shadow :=
      { cameras := [], tag_states := [], tag_name := "shadow",
        mask := get_shadow_mask },
    voxelize :=
      { cameras := [], tag_states := [], tag_name := "voxelize",
        mask := get_voxelize_mask },
    stores := s,
    main_cam_node := main_cam }

namespace World

/-- `apply_shadow_state` (header line 34): forwards to the shadow
channel's `apply_state`. -/
def apply_shadow_state (w : World) (np shader : Nat) (name : String)
    (sort : Int) : World :=
  let p := StateContainer.apply_state w.shadow w.stores np shader name sort
  { w with shadow := p.1, stores := p.2 }

/-- `apply_voxelize_state` (header line 35): forwards to the voxelize
channel's `apply_state`. -/
def apply_voxelize_state (w : World) (np shader : Nat) (name : String)
    (sort : Int) : World :=
  let p := StateContainer.apply_state w.voxelize w.stores np shader name sort
  { w with voxelize := p.1, stores := p.2 }

/-- `cleanup_states` (header line 36): invokes the per-container cleanup
on both channels. -/
def cleanup_states (w : World) : World :=
  let p1 := StateContainer.cleanup_states w.shadow w.stores
  let p2 := StateContainer.cleanup_states w.voxelize p1.2
  { w with shadow := p1.1, voxelize := p2.1, stores := p2.2 }

/-- `register_shadow_camera` (header line 38). -/
def register_shadow_camera (w : World) (cam : Nat) : World :=
  let p := StateContainer.register_camera w.shadow w.stores cam
  { w with shadow := p.1, stores := p.2 }

/-- `unregister_shadow_camera` (header line 39). -/
def unregister_shadow_camera (w : World) (cam : Nat) : World :=
  let p := StateContainer.unregister_camera w.shadow w.stores cam
  { w with shadow := p.1, stores := p.2 }

/-- `register_voxelize_camera` (header line 41). -/
def register_voxelize_camera (w : World) (cam : Nat) : World :=
  let p := StateContainer.register_camera w.voxelize w.stores cam
  { w with voxelize := p.1, stores := p.2 }

/-- `unregister_voxelize_camera` (header line 42). -/
def unregister_voxelize_camera (w : World) (cam : Nat) : World :=
  let p := StateContainer.unregister_camera w.voxelize w.stores cam
  { w with voxelize := p.1, stores := p.2 }

end World

/-- One operation on a single pass channel, for stating properties of
arbitrary call sequences. -/
inductive ChanOp where
  | applyOp (np shader : Nat) (name : String) (sort : Int)
  | regOp (cam : Nat)
  | unregOp (cam : Nat)
  | cleanupOp

/-- Run one channel operation on a channel/stores pair. -/
def stepOp (op : ChanOp) (p : StateContainer × Stores) : StateContainer × Stores :=
  match op with
  | .applyOp np sh name sort => StateContainer.apply_state p.1 p.2 np sh name sort
  | .regOp cam => StateContainer.register_camera p.1 p.2 cam
  | .unregOp cam => StateContainer.unregister_camera p.1 p.2 cam
  | .cleanupOp => StateContainer.cleanup_states p.1 p.2

/-- Run a sequence of channel operations. -/
def runOps (ops : List ChanOp) (p : StateContainer × Stores) :
    StateContainer × Stores :=
  ops.foldl (fun q op => stepOp op q) p

/-- The channel invariant of the spec: every registered camera has the
channel bit set in its mask and its lookup key equal to the channel tag
name, and the camera list has no duplicates. -/
def ChanInvariant (c : StateContainer) (s : Stores) : Prop :=
  c.cameras.Nodup ∧
  ∀ cam ∈ c.cameras,
    (s.camStore cam).mask &&& c.mask = c.mask ∧
    (s.camStore cam).tagKey = c.tag_name

instance (c : StateContainer) (s : Stores) : Decidable (ChanInvariant c s) := by
  unfold ChanInvariant
  exact inferInstance

/-- Existing cache entries are never replaced by a step: an entry present
before is either unchanged or (after a cleanup) absent afterwards. -/
def EntryPreserved (c d : StateContainer) : Prop :=
  ∀ name ov, lookupTag c.tag_states name = some ov →
    lookupTag d.tag_states name = some ov ∨ lookupTag d.tag_states name = none

end RenderPipeline

namespace RenderPipeline

/-! ### Helper lemmas about the association-list cache -/

lemma lookupTag_append_some {ts : List (String × RenderStateOv)} {n : String}
    {v : RenderStateOv} (l : List (String × RenderStateOv))
    (h : lookupTag ts n = some v) : lookupTag (ts ++ l) n = some v := by
  induction ts with
  | nil => simp [lookupTag] at h
  | cons p rest ih =>
    obtain ⟨k, w⟩ := p
    simp only [List.cons_append, lookupTag] at h ⊢
    by_cases hk : k = n
    · simpa [hk] using h
    · simp only [hk, if_false] at h ⊢
      exact ih h

lemma lookupTag_append_none {ts : List (String × RenderStateOv)} {n : String}
    (l : List (String × RenderStateOv)) (h : lookupTag ts n = none) :
    lookupTag (ts ++ l) n = lookupTag l n := by
  induction ts with
  | nil => simp
  | cons p rest ih =>
    obtain ⟨k, w⟩ := p
    simp only [List.cons_append, lookupTag] at h ⊢
    by_cases hk : k = n
    · simp [hk] at h
    · simp only [hk, if_false] at h ⊢
      exact ih h

lemma lookupTag_append_fresh {ts : List (String × RenderStateOv)} {n : String}
    (ov : RenderStateOv) (h : lookupTag ts n = none) :
    lookupTag (ts ++ [(n, ov)]) n = some ov := by
  rw [lookupTag_append_none _ h]
  simp [lookupTag]

/-! ### Helper lemmas about masks and point updates -/

lemma and_or_self (m b : Nat) : (m ||| b) &&& b = b := by
  apply Nat.eq_of_testBit_eq
  intro i
  simp only [Nat.testBit_and, Nat.testBit_or]
  cases b.testBit i <;> simp

lemma testBit_eq_false_of_lt32 {m : Nat} (hm : m < 2 ^ 32) {i : Nat}
    (hi : 32 ≤ i) : m.testBit i = false :=
  Nat.testBit_lt_two_pow (lt_of_lt_of_le hm (Nat.pow_le_pow_right (by norm_num) hi))

lemma testBit_of_and_eq_zero {m b : Nat} (h : m &&& b = 0) (i : Nat)
    (hb : b.testBit i = true) : m.testBit i = false := by
  have h2 := congrArg (fun x => x.testBit i) h
  simpa [Nat.testBit_and, hb] using h2

lemma clear_bits_or_self {m b : Nat} (hm : m < 2 ^ 32) (hb : b < 2 ^ 32)
    (hd : m &&& b = 0) : clear_bits (m ||| b) b = m := by
  apply Nat.eq_of_testBit_eq
  intro i
  simp only [clear_bits, mask32_all, Nat.testBit_and, Nat.testBit_or,
    Nat.testBit_xor, Nat.testBit_two_pow_sub_one]
  by_cases hi : i < 32
  · cases hbi : b.testBit i
    · simp [hi]
    · simp [hi, testBit_of_and_eq_zero hd i hbi]
  · have hmi : m.testBit i = false := testBit_eq_false_of_lt32 hm (le_of_not_lt hi)
    have hbi : b.testBit i = false := testBit_eq_false_of_lt32 hb (le_of_not_lt hi)
    simp [hi, hmi, hbi]

lemma clear_bits_of_and_eq_zero {m b : Nat} (hm : m < 2 ^ 32)
    (hd : m &&& b = 0) : clear_bits m b = m := by
  apply Nat.eq_of_testBit_eq
  intro i
  simp only [clear_bits, mask32_all, Nat.testBit_and, Nat.testBit_xor,
    Nat.testBit_two_pow_sub_one]
  by_cases hi : i < 32
  · cases hbi : b.testBit i
    · simp [hi]
    · simp [hi, testBit_of_and_eq_zero hd i hbi]
  · simp [hi, testBit_eq_false_of_lt32 hm (le_of_not_lt hi)]

lemma updCam_self (f : Nat → CameraState) (c : Nat) (g : CameraState → CameraState) :
    updCam f c g c = g (f c) := by
  simp [updCam]

lemma updCam_ne (f : Nat → CameraState) (c : Nat) (g : CameraState → CameraState)
    {x : Nat} (h : x ≠ c) : updCam f c g x = f x := by
  simp [updCam, h]

/-! ### Concrete example data used by witnesses -/

def exStores : Stores :=
  { camStore := fun _ => { mask := 0, tagKey := default_tag_key },
    nodeStore := fun _ _ => none,
    nextUid := 0 }

def exShadowC : StateContainer :=
  { cameras := [], tag_states := [], tag_name := "shadow",
    mask := get_shadow_mask }

def exWorld : World := makeTagStateManager 99 exStores

def exName : String := "default"

/-! ### Claims -/

/-- C7: the reserved visibility bits are pairwise disjoint: the shadow and
voxelize masks have zero bitwise AND, and neither overlaps the
default/gbuffer mask. -/
theorem mask_exclusivity :
    get_shadow_mask &&& get_voxelize_mask = 0 ∧
    get_shadow_mask &&& get_gbuffer_mask = 0 ∧
    get_voxelize_mask &&& get_gbuffer_mask = 0 := by
  decide

/-- C9: unregistering a camera that is not in the channel's camera list is
a no-op: the container (cameras and tag_states) and the whole external
store, in particular that camera's mask and lookup key, are unchanged. -/
theorem unregister_absent_noop (c : StateContainer) (s : Stores) (cam : Nat)
    (h : cam ∉ c.cameras) :
    StateContainer.unregister_camera c s cam = (c, s) := by
  simp [StateContainer.unregister_camera, h]

theorem unregister_absent_noop_witness :
    (0 : Nat) ∉ exShadowC.cameras ∧
    StateContainer.unregister_camera exShadowC exStores 0 = (exShadowC, exStores) :=
  ⟨by decide, unregister_absent_noop exShadowC exStores 0 (by decide)⟩

/-- C10: the two pass channels are isolated: every shadow-channel
operation leaves the voxelize container (cameras, tag_states, tag_name,
mask) unchanged, and every voxelize-channel operation leaves the shadow
container unchanged. -/
theorem channel_isolation (w : World) (np sh cam : Nat) (name : String) (q : Int) :
    (World.apply_shadow_state w np sh name q).voxelize = w.voxelize ∧
    (World.register_shadow_camera w cam).voxelize = w.voxelize ∧
    (World.unregister_shadow_camera w cam).voxelize = w.voxelize ∧
    (World.apply_voxelize_state w np sh name q).shadow = w.shadow ∧
    (World.register_voxelize_camera w cam).shadow = w.shadow ∧
    (World.unregister_voxelize_camera w cam).shadow = w.shadow :=
  ⟨rfl, rfl, rfl, rfl, rfl, rfl⟩

end RenderPipeline

namespace RenderPipeline

/-- C1: on a fresh cache key `n`, applying a state to node `a` and then a
second state (any shader/sort) to node `b` under the same name leaves the
container unchanged by the second call, keeps the entry built from the
first call's shader and sort, and makes both nodes reference that
identical override. -/
theorem cache_sharing_first_writer_wins (c : StateContainer) (s : Stores)
    (a b sh1 sh2 : Nat) (n : String) (q1 q2 : Int)
    (h : lookupTag c.tag_states n = none) :
    let ov := build_tag_state sh1 q1 s.nextUid
    let p1 := StateContainer.apply_state c s a sh1 n q1
    let p2 := StateContainer.apply_state p1.1 p1.2 b sh2 n q2
    p2.1 = p1.1 ∧
    lookupTag p2.1.tag_states n = some ov ∧
    p2.2.nodeStore a c.tag_name = some ov ∧
    p2.2.nodeStore b c.tag_name = some ov := by
  have key : lookupTag (c.tag_states ++ [(n, build_tag_state sh1 q1 s.nextUid)]) n
      = some (build_tag_state sh1 q1 s.nextUid) := lookupTag_append_fresh _ h
  refine ⟨?_, ?_, ?_, ?_⟩ <;>
    simp [StateContainer.apply_state, h, key, updNode]

theorem cache_sharing_first_writer_wins_witness :
    lookupTag exShadowC.tag_states exName = none ∧
    (let ov := build_tag_state 7 10 exStores.nextUid
     let p1 := StateContainer.apply_state exShadowC exStores 0 7 exName 10
     let p2 := StateContainer.apply_state p1.1 p1.2 1 8 exName 20
     p2.1 = p1.1 ∧
     lookupTag p2.1.tag_states exName = some ov ∧
     p2.2.nodeStore 0 exShadowC.tag_name = some ov ∧
     p2.2.nodeStore 1 exShadowC.tag_name = some ov) :=
  ⟨by decide,
   cache_sharing_first_writer_wins exShadowC exStores 0 1 7 8 exName 10 20 (by decide)⟩

/-- C8: when `apply_state` misses the cache, the entry it builds and
caches under `name` is the default state with exactly the given shader
bound, the draw-order priority set to the given sort, and color writes
disabled; this holds on both the shadow and the voxelize channel. -/
theorem new_state_shape (w : World) (np sh : Nat) (name : String) (q : Int)
    (h1 : lookupTag w.shadow.tag_states name = none)
    (h2 : lookupTag w.voxelize.tag_states name = none) :
    lookupTag (World.apply_shadow_state w np sh name q).shadow.tag_states name =
      some { shader := sh, sort := q, colorWriteOff := true,
             uid := w.stores.nextUid } ∧
    lookupTag (World.apply_voxelize_state w np sh name q).voxelize.tag_states name =
      some { shader := sh, sort := q, colorWriteOff := true,
             uid := w.stores.nextUid } := by
  constructor
  · simp [World.apply_shadow_state, StateContainer.apply_state, h1,
      lookupTag_append_fresh _ h1, build_tag_state]
  · simp [World.apply_voxelize_state, StateContainer.apply_state, h2,
      lookupTag_append_fresh _ h2, build_tag_state]

theorem new_state_shape_witness :
    lookupTag exWorld.shadow.tag_states exName = none ∧
    lookupTag exWorld.voxelize.tag_states exName = none ∧
    (lookupTag (World.apply_shadow_state exWorld 0 7 exName 10).shadow.tag_states exName =
      some { shader := 7, sort := 10, colorWriteOff := true,
             uid := exWorld.stores.nextUid } ∧
     lookupTag (World.apply_voxelize_state exWorld 0 7 exName 10).voxelize.tag_states exName =
      some { shader := 7, sort := 10, colorWriteOff := true,
             uid := exWorld.stores.nextUid }) :=
  ⟨by decide, by decide, new_state_shape exWorld 0 7 exName 10 (by decide) (by decide)⟩

end RenderPipeline

namespace RenderPipeline

/-- C3: after the public `cleanup_states`, the shadow channel's cache is
empty, and a subsequent `apply_shadow_state` with a previously used name
builds and caches a fresh override whose identity differs from the one
cached under that name before the cleanup (and attaches it to the node). -/
theorem cleanup_then_new_identity (w : World) (name : String)
    (ov : RenderStateOv) (np sh : Nat) (q : Int)
    (h : lookupTag w.shadow.tag_states name = some ov)
    (hu : ov.uid < w.stores.nextUid) :
    let w1 := World.cleanup_states w
    let w2 := World.apply_shadow_state w1 np sh name q
    w1.shadow.tag_states = [] ∧
    ∃ ov2, lookupTag w2.shadow.tag_states name = some ov2 ∧
      w2.stores.nodeStore np w.shadow.tag_name = some ov2 ∧
      ov2.uid ≠ ov.uid := by
  refine ⟨rfl, build_tag_state sh q w.stores.nextUid, ?_, ?_, ?_⟩
  · simp [World.cleanup_states, World.apply_shadow_state,
      StateContainer.apply_state, StateContainer.cleanup_states, lookupTag]
  · simp [World.cleanup_states, World.apply_shadow_state,
      StateContainer.apply_state, StateContainer.cleanup_states, lookupTag, updNode]
  · exact fun hcon => absurd (hcon ▸ hu) (lt_irrefl _)

theorem cleanup_then_new_identity_witness :
    (let w0 := World.apply_shadow_state exWorld 0 7 exName 10
     lookupTag w0.shadow.tag_states exName = some (build_tag_state 7 10 0) ∧
     (build_tag_state 7 10 0).uid < w0.stores.nextUid) ∧
    (let w0 := World.apply_shadow_state exWorld 0 7 exName 10
     let w1 := World.cleanup_states w0
     let w2 := World.apply_shadow_state w1 1 8 exName 20
     w1.shadow.tag_states = [] ∧
     ∃ ov2, lookupTag w2.shadow.tag_states exName = some ov2 ∧
       w2.stores.nodeStore 1 w0.shadow.tag_name = some ov2 ∧
       ov2.uid ≠ (build_tag_state 7 10 0).uid) :=
  ⟨⟨by decide, by decide⟩,
   cleanup_then_new_identity (World.apply_shadow_state exWorld 0 7 exName 10)
     exName (build_tag_state 7 10 0) 1 8 20 (by decide) (by decide)⟩

/-- C4 counterexample: after applying a shadow state to node 0 and then
running `cleanup_states`, node 0 still carries the shadow-tag override
(it is not detached), contradicting the claim that cleanup restores every
node to its default appearance. -/
theorem cleanup_leaves_node_override :
    (World.cleanup_states
        (World.apply_shadow_state exWorld 0 7 exName 10)).stores.nodeStore 0
      (World.cleanup_states
        (World.apply_shadow_state exWorld 0 7 exName 10)).shadow.tag_name
      ≠ none := by
  decide

/-- C4 amended: `cleanup_states` clears both channels' tag-state caches
entirely, but detaches nothing from the scene graph: the per-node override
tables are left exactly as they were, so nodes keep their (now stale)
per-pass overrides.  `StateContainer` tracks no nodes, so detachment is
not possible from the container alone. -/
theorem cleanup_clears_cache_only (w : World) :
    (World.cleanup_states w).shadow.tag_states = [] ∧
    (World.cleanup_states w).voxelize.tag_states = [] ∧
    (World.cleanup_states w).stores.nodeStore = w.stores.nodeStore :=
  ⟨rfl, rfl, rfl⟩

/-- C6: registering the same camera twice on one channel is idempotent:
the second call changes nothing (so the camera's mask and lookup key keep
the values from after the first call), and the camera list holds exactly
one entry for that camera. -/
theorem register_idempotent (c : StateContainer) (s : Stores) (cam : Nat)
    (h : c.cameras.count cam ≤ 1) :
    let p1 := StateContainer.register_camera c s cam
    let p2 := StateContainer.register_camera p1.1 p1.2 cam
    p2 = p1 ∧ p1.1.cameras.count cam = 1 := by
  intro p1 p2
  by_cases hmem : cam ∈ c.cameras
  · have hp1 : p1 = (c, s) := by
      simp [p1, StateContainer.register_camera, hmem]
    have hcount : c.cameras.count cam = 1 :=
      le_antisymm h (List.count_pos_iff.mpr hmem)
    constructor
    · simp [p2, hp1, StateContainer.register_camera, hmem]
    · rw [hp1]
      exact hcount
  · have hcams : p1.1.cameras = c.cameras ++ [cam] := by
      simp [p1, StateContainer.register_camera, hmem]
    have hmem2 : cam ∈ p1.1.cameras := by
      rw [hcams]
      simp
    constructor
    · simp [p2, StateContainer.register_camera, hmem2]
    · rw [hcams]
      simp [List.count_append, List.count_eq_zero_of_not_mem hmem]

theorem register_idempotent_witness :
    exShadowC.cameras.count 5 ≤ 1 ∧
    (let p1 := StateContainer.register_camera exShadowC exStores 5
     let p2 := StateContainer.register_camera p1.1 p1.2 5
     p2 = p1 ∧ p1.1.cameras.count 5 = 1) :=
  ⟨by decide, register_idempotent exShadowC exStores 5 (by decide)⟩

end RenderPipeline

namespace RenderPipeline

def exBusyStores : Stores :=
  { camStore := fun _ => { mask := get_shadow_mask, tagKey := "custom" },
    nodeStore := fun _ _ => none,
    nextUid := 0 }

/-- C5 counterexample: for a camera whose visibility mask already contains
the shadow bit and whose lookup key is not the default value,
register-then-unregister on the shadow channel does not restore the
camera's prior mask and key: both end at the default-pass values instead. -/
theorem register_unregister_not_inverse :
    (World.unregister_shadow_camera
        (World.register_shadow_camera (makeTagStateManager 99 exBusyStores) 0)
        0).stores.camStore 0
      ≠ exBusyStores.camStore 0 := by
  decide

/-- C5 amended: register-then-unregister restores the camera's visibility
mask and lookup key exactly, provided the camera started in the
default-pass state for that channel: its (32-bit) mask has the channel's
bits clear and its lookup key equals the default value (the channel mask
itself being a 32-bit value). -/
theorem register_unregister_roundtrip (c : StateContainer) (s : Stores)
    (cam : Nat)
    (hm : (s.camStore cam).mask < 2 ^ 32) (hb : c.mask < 2 ^ 32)
    (hd : (s.camStore cam).mask &&& c.mask = 0)
    (hk : (s.camStore cam).tagKey = default_tag_key) :
    let p1 := StateContainer.register_camera c s cam
    let p2 := StateContainer.unregister_camera p1.1 p1.2 cam
    p2.2.camStore cam = s.camStore cam := by
  intro p1 p2
  by_cases hmem : cam ∈ c.cameras
  · have hp1 : p1 = (c, s) := by
      simp [p1, StateContainer.register_camera, hmem]
    have h2 : p2.2.camStore cam =
        { mask := clear_bits (s.camStore cam).mask c.mask,
          tagKey := default_tag_key } := by
      simp [p2, hp1, StateContainer.unregister_camera, hmem, updCam]
    rw [h2, clear_bits_of_and_eq_zero hm hd, ← hk]
  · have hmem2 : cam ∈ p1.1.cameras := by
      simp [p1, StateContainer.register_camera, hmem]
    have h2 : p2.2.camStore cam =
        { mask := clear_bits ((s.camStore cam).mask ||| c.mask) c.mask,
          tagKey := default_tag_key } := by
      simp [p2, p1, StateContainer.register_camera, hmem,
        StateContainer.unregister_camera, hmem2, updCam]
    rw [h2, clear_bits_or_self hm hb hd, ← hk]

theorem register_unregister_roundtrip_witness :
    ((exStores.camStore 3).mask < 2 ^ 32 ∧ exShadowC.mask < 2 ^ 32 ∧
     (exStores.camStore 3).mask &&& exShadowC.mask = 0 ∧
     (exStores.camStore 3).tagKey = default_tag_key) ∧
    (let p1 := StateContainer.register_camera exShadowC exStores 3
     let p2 := StateContainer.unregister_camera p1.1 p1.2 3
     p2.2.camStore 3 = exStores.camStore 3) :=
  ⟨⟨by decide, by decide, by decide, by decide⟩,
   register_unregister_roundtrip exShadowC exStores 3
     (by decide) (by decide) (by decide) (by decide)⟩

/-! ### Per-operation preservation lemmas for the channel invariant -/

lemma chanInvariant_apply (c : StateContainer) (s : Stores) (np sh : Nat)
    (n : String) (q : Int) (h : ChanInvariant c s) :
    ChanInvariant (StateContainer.apply_state c s np sh n q).1
      (StateContainer.apply_state c s np sh n q).2 := by
  obtain ⟨hnd, hcams⟩ := h
  cases hl : lookupTag c.tag_states n with
  | some ov =>
      exact ⟨by simpa [StateContainer.apply_state, hl] using hnd,
             by simpa [StateContainer.apply_state, hl] using hcams⟩
  | none =>
      exact ⟨by simpa [StateContainer.apply_state, hl] using hnd,
             by simpa [StateContainer.apply_state, hl] using hcams⟩

lemma chanInvariant_register (c : StateContainer) (s : Stores) (cam : Nat)
    (h : ChanInvariant c s) :
    ChanInvariant (StateContainer.register_camera c s cam).1
      (StateContainer.register_camera c s cam).2 := by
  obtain ⟨hnd, hcams⟩ := h
  by_cases hmem : cam ∈ c.cameras
  · exact ⟨by simpa [StateContainer.register_camera, hmem] using hnd,
           by simpa [StateContainer.register_camera, hmem] using hcams⟩
  · refine ⟨?_, ?_⟩
    · simp [StateContainer.register_camera, hmem, List.nodup_append, hnd]
    · intro x hx
      simp only [StateContainer.register_camera, hmem, if_false,
        List.mem_append, List.mem_singleton] at hx
      rcases hx with hx | rfl
      · have hxne : x ≠ cam := fun he => hmem (he ▸ hx)
        simp only [StateContainer.register_camera, hmem, if_false]
        rw [updCam_ne _ _ _ hxne]
        exact hcams x hx
      · simp only [StateContainer.register_camera, hmem, if_false]
        rw [updCam_self]
        exact ⟨and_or_self _ _, rfl⟩

lemma chanInvariant_unregister (c : StateContainer) (s : Stores) (cam : Nat)
    (h : ChanInvariant c s) :
    ChanInvariant (StateContainer.unregister_camera c s cam).1
      (StateContainer.unregister_camera c s cam).2 := by
  obtain ⟨hnd, hcams⟩ := h
  by_cases hmem : cam ∈ c.cameras
  · refine ⟨?_, ?_⟩
    · simpa [StateContainer.unregister_camera, hmem] using hnd.erase cam
    · intro x hx
      simp only [StateContainer.unregister_camera, hmem, if_true] at hx
      have hxx := hnd.mem_erase_iff.mp hx
      simp only [StateContainer.unregister_camera, hmem, if_true]
      rw [updCam_ne _ _ _ hxx.1]
      exact hcams x hxx.2
  · exact ⟨by simpa [StateContainer.unregister_camera, hmem] using hnd,
           by simpa [StateContainer.unregister_camera, hmem] using hcams⟩

lemma chanInvariant_cleanup (c : StateContainer) (s : Stores)
    (h : ChanInvariant c s) :
    ChanInvariant (StateContainer.cleanup_states c s).1
      (StateContainer.cleanup_states c s).2 := by
  obtain ⟨hnd, hcams⟩ := h
  exact ⟨by simpa [StateContainer.cleanup_states] using hnd,
         by simpa [StateContainer.cleanup_states] using hcams⟩

lemma chanInvariant_step (op : ChanOp) (p : StateContainer × Stores)
    (h : ChanInvariant p.1 p.2) :
    ChanInvariant (stepOp op p).1 (stepOp op p).2 := by
  cases op with
  | applyOp np sh n q => exact chanInvariant_apply _ _ _ _ _ _ h
  | regOp cam => exact chanInvariant_register _ _ _ h
  | unregOp cam => exact chanInvariant_unregister _ _ _ h
  | cleanupOp => exact chanInvariant_cleanup _ _ h

lemma chanInvariant_run (ops : List ChanOp) (p : StateContainer × Stores)
    (h : ChanInvariant p.1 p.2) :
    ChanInvariant (runOps ops p).1 (runOps ops p).2 := by
  induction ops generalizing p with
  | nil => exact h
  | cons op rest ih => exact ih _ (chanInvariant_step op p h)

lemma entryPreserved_step (op : ChanOp) (p : StateContainer × Stores) :
    EntryPreserved p.1 (stepOp op p).1 := by
  cases op with
  | applyOp np sh n q =>
    intro name ov h
    left
    cases hl : lookupTag p.1.tag_states n with
    | some ov2 => simpa [stepOp, StateContainer.apply_state, hl] using h
    | none =>
      simp only [stepOp, StateContainer.apply_state, hl]
      exact lookupTag_append_some _ h
  | regOp cam =>
    intro name ov h
    left
    by_cases hmem : cam ∈ p.1.cameras <;>
      simpa [stepOp, StateContainer.register_camera, hmem] using h
  | unregOp cam =>
    intro name ov h
    left
    by_cases hmem : cam ∈ p.1.cameras <;>
      simpa [stepOp, StateContainer.unregister_camera, hmem] using h
  | cleanupOp =>
    intro name ov h
    right
    simp [stepOp, StateContainer.cleanup_states, lookupTag]

/-- C2: across any sequence of channel operations (apply_state,
register_camera, unregister_camera, cleanup_states) the channel invariant
is maintained — every registered camera has the channel bit set and its
lookup key equal to the channel tag name, with no duplicate registrations
— and no single operation ever mutates an existing tag_states entry in
place (it is either preserved unchanged or removed wholesale). -/
theorem channel_invariant_preserved (ops : List ChanOp) (c : StateContainer)
    (s : Stores) (h : ChanInvariant c s) :
    ChanInvariant (runOps ops (c, s)).1 (runOps ops (c, s)).2 ∧
    ∀ op (p : StateContainer × Stores), EntryPreserved p.1 (stepOp op p).1 :=
  ⟨chanInvariant_run ops (c, s) h, fun op p => entryPreserved_step op p⟩

def exOps : List ChanOp :=
  [ChanOp.regOp 1, ChanOp.applyOp 0 7 exName 10, ChanOp.regOp 2,
   ChanOp.applyOp 3 8 exName 20, ChanOp.unregOp 1, ChanOp.cleanupOp]

theorem channel_invariant_preserved_witness :
    ChanInvariant exShadowC exStores ∧
    ChanInvariant (runOps exOps (exShadowC, exStores)).1
      (runOps exOps (exShadowC, exStores)).2 :=
  ⟨by decide, (channel_invariant_preserved exOps exShadowC exStores (by decide)).1⟩

end RenderPipeline
